import Mathlib

set_option maxRecDepth 4000

/-!
Verification development for the singularity connection plugin
(src/singularity.py).

Python strings and byte strings are modelled as lists of characters
(`Str`).  The standard-library helpers the plugin relies on
(`str.split(sep)`, `str.join`, `posixpath.normpath`, `shlex.quote`,
`bytes.__repr__`) are modelled faithfully from their CPython semantics.
Child processes and the local filesystem are modelled explicitly: a
`ProcBehavior` says whether `subprocess.Popen` manages to launch the child
and what the child writes and returns, the local filesystem is a predicate
on paths, and each operation also returns the ordered list of observable
events (local file opens, process creations).
-/

/-- Python strings (and byte strings) as lists of characters. -/
abbrev Str := List Char

/-- The single-quote character, written by code point to keep source tidy. -/
def squote : Char := Char.ofNat 39

/-- The double-quote character. -/
def dquote : Char := Char.ofNat 34

/-- The backslash character. -/
def bslash : Char := Char.ofNat 92

/-- Python `s.startswith(pre)`: `pyStartsWith pre s`. -/
def pyStartsWith : Str → Str → Bool
  | [], _ => true
  | _ :: _, [] => false
  | p :: ps, c :: cs => p == c && pyStartsWith ps cs

/-- Helper for Python `s.split(sep)` (single-character separator): returns
the first token and the list of remaining tokens. -/
def pySplitF (sep : Char) : Str → Str × List Str
  | [] => ([], [])
  | c :: cs =>
    let r := pySplitF sep cs
    if c == sep then ([], r.1 :: r.2) else (c :: r.1, r.2)

/-- Python `s.split(sep)` for a single-character separator: splits at every
occurrence of `sep`, keeping empty tokens; the empty string yields `[""]`. -/
def pySplit (sep : Char) (s : Str) : List Str :=
  (pySplitF sep s).1 :: (pySplitF sep s).2

/-- Python `sep.join(parts)` for a single-character separator. -/
def pyJoin (sep : Char) : List Str → Str
  | [] => []
  | [x] => x
  | x :: y :: ys => x ++ sep :: pyJoin sep (y :: ys)

/-- The component loop of CPython `posixpath.normpath`: walks the
slash-separated components, dropping empty and `.` components and resolving
`..` against the accumulated prefix exactly as the CPython source does. -/
def normLoop (slashes : Nat) : List Str → List Str → List Str
  | [], acc => acc
  | comp :: rest, acc =>
    if comp = [] ∨ comp = ['.'] then
      normLoop slashes rest acc
    else if comp ≠ ['.', '.'] ∨ (slashes = 0 ∧ acc = []) ∨
        (acc ≠ [] ∧ acc.getLast? = some ['.', '.']) then
      normLoop slashes rest (acc ++ [comp])
    else if acc ≠ [] then
      normLoop slashes rest acc.dropLast
    else
      normLoop slashes rest acc

/-- CPython `posixpath.normpath` (the `os.path.normpath` used by the plugin
on a POSIX controller): collapses `.` and duplicate separators, resolves
`..`, keeps the POSIX two-leading-slash special case, and maps an empty
result to `.`. -/
def normpath (path : Str) : Str :=
  if path = [] then ['.']
  else
    let slashes : Nat :=
      if pyStartsWith ['/'] path then
        if pyStartsWith ['/', '/'] path && !(pyStartsWith ['/', '/', '/'] path)
        then 2 else 1
      else 0
    let newComps := normLoop slashes (pySplit '/' path) []
    let res := List.replicate slashes '/' ++ pyJoin '/' newComps
    if res = [] then ['.'] else res

/-- `Connection._prefix_login_path` from src/singularity.py: a relative
remote path is anchored at the instance root via
`os.path.join(os.path.sep, remote_path)` (which for a path not starting
with the separator is plain prefixing) and the result is passed through
`os.path.normpath`. -/
def prefix_login_path (remote_path : Str) : Str :=
  let p := if pyStartsWith ['/'] remote_path then remote_path
           else '/' :: remote_path
  normpath p

/-- Characters left unquoted by Python `shlex.quote`: every character is
ASCII alphanumeric, underscore, or one of at-sign, percent, plus, equals,
colon, comma, dot, slash, hyphen. -/
def isShlexSafe (c : Char) : Bool :=
  c.isAlphanum || c == '_' || c == '@' || c == '%' || c == '+' || c == '=' ||
    c == ':' || c == ',' || c == '.' || c == '/' || c == '-'

/-- Python `shlex.quote` (imported by the plugin as `shlex_quote`): the
empty string becomes two single quotes, a fully safe string is returned
unchanged, and otherwise the string is wrapped in single quotes with each
embedded single quote replaced by the five-character sequence
quote, double-quote, quote, double-quote, quote. -/
def shlex_quote (s : Str) : Str :=
  if s = [] then [squote, squote]
  else if s.all isShlexSafe then s
  else squote :: (s.flatMap fun c =>
    if c == squote then [squote, dquote, squote, dquote, squote] else [c]) ++ [squote]

/-- Two lowercase hex digits of a byte value. -/
def hex2 (n : Nat) : Str := [Nat.digitChar (n / 16 % 16), Nat.digitChar (n % 16)]

/-- One byte as it appears inside a CPython `bytes.__repr__` with quote
character `q`. -/
def pyByteEscape (q : Char) (c : Char) : Str :=
  if c == bslash || c == q then [bslash, c]
  else if c == '\t' then [bslash, 't']
  else if c == '\n' then [bslash, 'n']
  else if c == '\r' then [bslash, 'r']
  else if c.toNat < 32 || 127 ≤ c.toNat then bslash :: 'x' :: hex2 c.toNat
  else [c]

/-- CPython `bytes.__repr__`, as produced by interpolating a bytes object
with `%s` into a `str` format (which fetch_file does for the captured
standard error): `b` plus a quoted, escaped rendering of the bytes. -/
def pyBytesRepr (s : Str) : Str :=
  let q := if squote ∈ s ∧ dquote ∉ s then dquote else squote
  'b' :: q :: (s.flatMap (pyByteEscape q)) ++ [q]

/-- Modelled from the spec: the fixed transfer block size constant
`BUFSIZE` imported from the host framework
(`ansible.plugins.connection`), whose source is not part of this
repository; the framework sets it to 64 KiB. -/
def BUFSIZE : Nat := 65536

/-- The block size as the string interpolated by `"bs=%s" % BUFSIZE`. -/
def bufsizeStr : Str := (toString BUFSIZE).data

/-- The configuration a `Connection` reads: the resolved control binary
path, `remote_addr`, `singularity_extra_args`, and the play context's
executable (the shell used for in-instance commands). -/
structure Config where
  singularity_cmd : Str
  remote_addr : Str
  singularity_extra_args : Str
  executable : Str

/-- Behaviour of the one child process a call may spawn: whether
`subprocess.Popen` launches it at all (`False` models `OSError`), its exit
code, and the bytes it writes to each stream. -/
structure ProcBehavior where
  launches : Bool
  returncode : Int
  stdoutData : Str
  stderrData : Str

/-- Observable events of one call, in order: opening a local file for
reading, opening (creating or truncating) a local file for writing, and a
successful child-process creation with its argument vector. -/
inductive Event where
  | openRead (path : Str)
  | openWrite (path : Str)
  | popen (args : List Str)
deriving DecidableEq

/-- The errors the plugin raises: `AnsibleError` and
`AnsibleFileNotFound`, each carrying its message. -/
inductive ConnError where
  | ansibleError (msg : Str)
  | ansibleFileNotFound (msg : Str)
deriving DecidableEq

/-- `Connection._build_exec_cmd` from src/singularity.py: start from the
control binary, append the split of `singularity_extra_args` when that
option is non-empty (Python truthiness of the string), then `exec`, the
target instance, and the trailing command. -/
def build_exec_cmd (cfg : Config) (cmd : List Str) : List Str :=
  let local_cmd := [cfg.singularity_cmd]
  let local_cmd := if cfg.singularity_extra_args = [] then local_cmd
    else local_cmd ++ pySplit ' ' cfg.singularity_extra_args
  local_cmd ++ ["exec".data, cfg.remote_addr] ++ cmd

/-- The message of the `AnsibleError` raised when `Popen` fails with
`OSError` inside `put_file`. -/
def put_launch_msg : Str :=
  "singularity connection requires dd command in the container to put files".data

/-- The message of the `AnsibleError` raised when `Popen` fails with
`OSError` inside `fetch_file`; the source repeats the put wording
verbatim. -/
def fetch_launch_msg : Str :=
  "singularity connection requires dd command in the container to put files".data

/-- The message of the `AnsibleError` raised by `put_file` on a non-zero
exit: `"failed to transfer file %s to %s:\n%s\n%s"` interpolated with the
local source path, the (already quoted) destination path, and the two
captured streams. -/
def put_fail_msg (in_path out_path stdout stderr : Str) : Str :=
  "failed to transfer file ".data ++ in_path ++ " to ".data ++ out_path ++
    ":\n".data ++ stdout ++ "\n".data ++ stderr

/-- The message of the `AnsibleError` raised by `fetch_file` on a non-zero
exit: `"failed to fetch file %s to %s:\n%s\n%s"` interpolated with the
normalized remote path, the local path, the `communicate` stdout — which
is `None` because stdout is bound to the local file, so `%s` renders the
literal `None` — and the repr of the captured stderr bytes. -/
def fetch_fail_msg (in_path out_path stderr : Str) : Str :=
  "failed to fetch file ".data ++ in_path ++ " to ".data ++ out_path ++
    ":\n".data ++ "None".data ++ "\n".data ++ pyBytesRepr stderr

/-- `Connection.put_file` from src/singularity.py: normalize the
destination, check the local source exists (else `AnsibleFileNotFound`),
shell-quote the destination, build the `dd of=... bs=...` invocation, open
the local file for reading and spawn the child with stdin bound to it; an
`OSError` from `Popen` raises the dd-requirement `AnsibleError`, a
non-zero exit raises the transfer `AnsibleError`. -/
def put_file (cfg : Config) (localExists : Str → Bool) (proc : ProcBehavior)
    (in_path out_path : Str) : Except ConnError Unit × List Event :=
  let out_path₁ := prefix_login_path out_path
  if localExists in_path = false then
    (Except.error (ConnError.ansibleFileNotFound
      ("file or module does not exist: ".data ++ in_path)), [])
  else
    let out_path₂ := shlex_quote out_path₁
    let args := build_exec_cmd cfg
      [cfg.executable, "-c".data,
       "dd of=".data ++ out_path₂ ++ " bs=".data ++ bufsizeStr]
    if proc.launches = false then
      (Except.error (ConnError.ansibleError put_launch_msg),
       [Event.openRead in_path])
    else if proc.returncode ≠ 0 then
      (Except.error (ConnError.ansibleError
        (put_fail_msg in_path out_path₂ proc.stdoutData proc.stderrData)),
       [Event.openRead in_path, Event.popen args])
    else
      (Except.ok (), [Event.openRead in_path, Event.popen args])

/-- `Connection.fetch_file` from src/singularity.py: normalize the remote
source, build the `dd if=... bs=...` invocation (no quoting of the
path), open the local destination with mode `wb` — creating or
truncating it — before spawning the child with stdout bound to that file;
an `OSError` from `Popen` raises the dd-requirement `AnsibleError`, a
non-zero exit raises the fetch `AnsibleError`; the local file is never
removed.  Returns the result, the updated local filesystem, and the
events. -/
def fetch_file (cfg : Config) (fs : Str → Bool) (proc : ProcBehavior)
    (in_path out_path : Str) :
    Except ConnError Unit × (Str → Bool) × List Event :=
  let in_path₁ := prefix_login_path in_path
  let args := build_exec_cmd cfg
    [cfg.executable, "-c".data,
     "dd if=".data ++ in_path₁ ++ " bs=".data ++ bufsizeStr]
  let fs₁ : Str → Bool := fun p => if p = out_path then true else fs p
  if proc.launches = false then
    (Except.error (ConnError.ansibleError fetch_launch_msg), fs₁,
     [Event.openWrite out_path])
  else if proc.returncode ≠ 0 then
    (Except.error (ConnError.ansibleError
      (fetch_fail_msg in_path₁ out_path proc.stderrData)), fs₁,
     [Event.openWrite out_path, Event.popen args])
  else
    (Except.ok (), fs₁, [Event.openWrite out_path, Event.popen args])

/-- A canonical path component: non-empty, not a dot segment, and free of
the separator. -/
def GoodComp (c : Str) : Prop :=
  c ≠ [] ∧ c ≠ ['.'] ∧ c ≠ ['.', '.'] ∧ '/' ∉ c

instance : DecidablePred GoodComp := fun c => by
  unfold GoodComp
  infer_instance

/-- The argument vector `put_file` passes to `Popen`. -/
def put_args (cfg : Config) (out_path : Str) : List Str :=
  build_exec_cmd cfg [cfg.executable, ("-c".data),
    ("dd of=".data) ++ shlex_quote (prefix_login_path out_path) ++
      (" bs=".data) ++ bufsizeStr]

/-- The argument vector `fetch_file` passes to `Popen`. -/
def fetch_args (cfg : Config) (in_path : Str) : List Str :=
  build_exec_cmd cfg [cfg.executable, ("-c".data),
    ("dd if=".data) ++ prefix_login_path in_path ++ (" bs=".data) ++ bufsizeStr]

/-! ## Lemmas about Python string splitting and joining -/

@[simp] theorem pySplitF_nil (sep : Char) : pySplitF sep [] = ([], []) := rfl

theorem pySplitF_cons (sep c : Char) (cs : Str) :
    pySplitF sep (c :: cs) =
      if c == sep then ([], (pySplitF sep cs).1 :: (pySplitF sep cs).2)
      else (c :: (pySplitF sep cs).1, (pySplitF sep cs).2) := rfl

theorem pySplitF_append (sep : Char) (a b : Str) :
    pySplitF sep (a ++ sep :: b) =
      ((pySplitF sep a).1, (pySplitF sep a).2 ++ pySplit sep b) := by
  induction a with
  | nil => simp [pySplitF, pySplit]
  | cons c a ih =>
    simp only [List.cons_append, pySplitF_cons, ih]
    by_cases h : c == sep <;> simp [h, pySplit]

/-- Splitting distributes over concatenation at a separator position. -/
theorem pySplit_append (sep : Char) (a b : Str) :
    pySplit sep (a ++ sep :: b) = pySplit sep a ++ pySplit sep b := by
  simp [pySplit, pySplitF_append]

theorem pySplitF_no_sep (sep : Char) (s : Str) (h : sep ∉ s) :
    pySplitF sep s = (s, []) := by
  induction s with
  | nil => rfl
  | cons c cs ih =>
    have hc : (c == sep) = false := by
      simp only [beq_eq_false_iff_ne]
      rintro rfl
      exact h (List.mem_cons_self _ _)
    rw [pySplitF_cons, hc]
    simp [ih fun hm => h (List.mem_cons_of_mem _ hm)]

/-- A string without the separator splits into exactly one token. -/
theorem pySplit_no_sep (sep : Char) (s : Str) (h : sep ∉ s) :
    pySplit sep s = [s] := by
  simp [pySplit, pySplitF_no_sep sep s h]

/-- No token produced by splitting contains the separator. -/
theorem pySplitF_mem_no_sep (sep : Char) (s : Str) :
    sep ∉ (pySplitF sep s).1 ∧ ∀ c ∈ (pySplitF sep s).2, sep ∉ c := by
  induction s with
  | nil => simp
  | cons c cs ih =>
    rw [pySplitF_cons]
    by_cases h : c == sep
    · simp only [h, if_pos rfl]
      exact ⟨List.not_mem_nil _, by
        intro t ht
        rcases List.mem_cons.mp ht with rfl | ht
        · exact ih.1
        · exact ih.2 t ht⟩
    · simp only [h]
      refine ⟨?_, ih.2⟩
      intro hmem
      rcases List.mem_cons.mp hmem with rfl | hmem
      · exact h (beq_self_eq_true sep)
      · exact ih.1 hmem

theorem pySplit_mem_no_sep (sep : Char) (s : Str) :
    ∀ c ∈ pySplit sep s, sep ∉ c := by
  intro c hc
  rcases List.mem_cons.mp hc with rfl | hc
  · exact (pySplitF_mem_no_sep sep s).1
  · exact (pySplitF_mem_no_sep sep s).2 c hc

theorem pyJoin_cons_cons (sep : Char) (x y : Str) (ys : List Str) :
    pyJoin sep (x :: y :: ys) = x ++ sep :: pyJoin sep (y :: ys) := rfl

/-- Joining then splitting recovers the tokens, provided there is at least
one token and none contains the separator. -/
theorem pySplit_pyJoin (sep : Char) :
    ∀ N : List Str, N ≠ [] → (∀ c ∈ N, sep ∉ c) →
      pySplit sep (pyJoin sep N) = N
  | [], h, _ => absurd rfl h
  | [x], _, hN => by
      simpa [pyJoin] using pySplit_no_sep sep x (hN x (List.mem_singleton.mpr rfl))
  | x :: y :: ys, _, hN => by
      rw [pyJoin_cons_cons, pySplit_append,
        pySplit_pyJoin sep (y :: ys) (List.cons_ne_nil _ _)
          (fun c hc => hN c (List.mem_cons_of_mem _ hc)),
        pySplit_no_sep sep x (hN x (List.mem_cons_self _ _))]
      rfl

/-- Splitting a string that starts with the separator yields a leading
empty token. -/
theorem pySplit_cons_sep (sep : Char) (r : Str) :
    pySplit sep (sep :: r) = [] :: pySplit sep r := by
  simp [pySplit, pySplitF_cons]

/-! ## Claim C1 -/

/-- Claim C1: for every target instance, trailing command list and
extra-args string, the invocation built by `_build_exec_cmd` is exactly
the control binary, then the split of the extra-args string on single
spaces (omitted entirely when that string is empty), then `exec` and the
target, then the trailing command; in particular with extra args
`-q -v` the tokens `-q` and `-v` appear immediately after the binary path
and before `exec`. -/
theorem exec_invocation_order (cfg : Config) (cmd : List Str) :
    build_exec_cmd cfg cmd =
      [cfg.singularity_cmd] ++
        (if cfg.singularity_extra_args = [] then []
         else pySplit ' ' cfg.singularity_extra_args) ++
        ["exec".data, cfg.remote_addr] ++ cmd
    ∧ ∀ bin addr exe : Str,
        build_exec_cmd ⟨bin, addr, ("-q -v".data), exe⟩ cmd =
          bin :: ("-q".data) :: ("-v".data) :: ("exec".data) :: addr :: cmd := by
  constructor
  · by_cases h : cfg.singularity_extra_args = [] <;>
      simp [build_exec_cmd, h]
  · intro bin addr exe
    rfl

/-! ## Claim C10 -/

/-- Claim C10: because the extra-args string is split on single space
characters, an extra-args string with a leading space produces an empty
token immediately after the binary, a trailing space produces an empty
token immediately before `exec`, and two consecutive spaces produce an
empty token between the surrounding flag tokens, so the built invocation
contains empty-string argument tokens at the corresponding positions. -/
theorem extras_split_empty_tokens (bin addr exe : Str) (cmd : List Str)
    (E : Str) :
    (∀ r, E = ' ' :: r →
      build_exec_cmd ⟨bin, addr, E, exe⟩ cmd =
        bin :: [] :: (pySplit ' ' r ++ ("exec".data) :: addr :: cmd))
    ∧ (∀ l, E = l ++ [' '] →
      build_exec_cmd ⟨bin, addr, E, exe⟩ cmd =
        [bin] ++ pySplit ' ' l ++ [[]] ++ ("exec".data) :: addr :: cmd)
    ∧ (∀ l r, E = l ++ ' ' :: ' ' :: r →
      build_exec_cmd ⟨bin, addr, E, exe⟩ cmd =
        [bin] ++ pySplit ' ' l ++ [[]] ++ pySplit ' ' r ++
          ("exec".data) :: addr :: cmd) := by
  refine ⟨?_, ?_, ?_⟩
  · rintro r rfl
    simp [build_exec_cmd, pySplit_cons_sep]
  · rintro l rfl
    have hne : l ++ [' '] ≠ [] := by simp
    have : pySplit ' ' (l ++ [' ']) = pySplit ' ' l ++ [[]] := by
      rw [show l ++ [' '] = l ++ ' ' :: [] from rfl, pySplit_append]
      rfl
    simp [build_exec_cmd, hne, this]
  · rintro l r rfl
    have hne : l ++ ' ' :: ' ' :: r ≠ [] := by simp
    have : pySplit ' ' (l ++ ' ' :: ' ' :: r) =
        pySplit ' ' l ++ [] :: pySplit ' ' r := by
      rw [pySplit_append, pySplit_cons_sep]
    simp [build_exec_cmd, hne, this]

/-- Witness for claim C10 at concrete inputs: a leading space in `" -q"`,
a trailing space in `"-q "`, and the double space in `"-q  -v"` each put
an empty token at the corresponding position of the built invocation. -/
theorem extras_split_empty_tokens_witness :
    build_exec_cmd ⟨("s".data), ("i".data), (" -q".data), ("sh".data)⟩ [] =
      [("s".data), [], ("-q".data), ("exec".data), ("i".data)]
    ∧ build_exec_cmd ⟨("s".data), ("i".data), ("-q ".data), ("sh".data)⟩ [] =
      [("s".data), ("-q".data), [], ("exec".data), ("i".data)]
    ∧ build_exec_cmd ⟨("s".data), ("i".data), ("-q  -v".data), ("sh".data)⟩ [] =
      [("s".data), ("-q".data), [], ("-v".data), ("exec".data), ("i".data)] := by
  refine ⟨?_, ?_, ?_⟩
  · rw [(extras_split_empty_tokens ("s".data) ("i".data) ("sh".data) []
      (" -q".data)).1 ("-q".data) rfl]
    decide
  · rw [(extras_split_empty_tokens ("s".data) ("i".data) ("sh".data) []
      ("-q ".data)).2.1 ("-q".data) rfl]
    decide
  · rw [(extras_split_empty_tokens ("s".data) ("i".data) ("sh".data) []
      ("-q  -v".data)).2.2 ("-q".data) ("-v".data) rfl]
    decide

/-! ## Lemmas about path normalization -/

/-- With one leading slash, every component accumulated by the
normalization loop is canonical (in particular, `..` never survives at
the root). -/
theorem normLoop_good : ∀ (comps acc : List Str),
    (∀ c ∈ comps, '/' ∉ c) → (∀ c ∈ acc, GoodComp c) →
    ∀ c ∈ normLoop 1 comps acc, GoodComp c
  | [], acc, _, hacc => by
      intro c hc
      exact hacc c hc
  | comp :: rest, acc, hcomps, hacc => by
    have hrest : ∀ c ∈ rest, '/' ∉ c :=
      fun c hc => hcomps c (List.mem_cons_of_mem _ hc)
    unfold normLoop
    by_cases h₁ : comp = [] ∨ comp = ['.']
    · rw [if_pos h₁]
      exact normLoop_good rest acc hrest hacc
    · rw [if_neg h₁]
      by_cases h₂ : comp ≠ ['.', '.'] ∨ ((1 : Nat) = 0 ∧ acc = []) ∨
          (acc ≠ [] ∧ acc.getLast? = some ['.', '.'])
      · rw [if_pos h₂]
        push_neg at h₁
        have hdd : comp ≠ ['.', '.'] := by
          rcases h₂ with h | ⟨h, _⟩ | ⟨_, hlast⟩
          · exact h
          · exact absurd h one_ne_zero
          · intro _
            have hmem : ['.', '.'] ∈ acc := by
              rcases List.mem_getLast?_eq_getLast (Option.mem_def.mpr hlast)
                with ⟨hne, heq⟩
              rw [heq]
              exact List.getLast_mem hne
            exact (hacc _ hmem).2.2.1 rfl
        refine normLoop_good rest (acc ++ [comp]) hrest ?_
        intro c hc
        rcases List.mem_append.mp hc with hc | hc
        · exact hacc c hc
        · rw [List.mem_singleton.mp hc]
          exact ⟨h₁.1, h₁.2, hdd, hcomps comp (List.mem_cons_self _ _)⟩
      · rw [if_neg h₂]
        by_cases h₃ : acc ≠ []
        · rw [if_pos h₃]
          refine normLoop_good rest acc.dropLast hrest ?_
          intro c hc
          exact hacc c (List.dropLast_subset _ hc)
        · rw [if_neg h₃]
          exact normLoop_good rest acc hrest hacc

/-- Canonical components pass through the normalization loop unchanged. -/
theorem normLoop_all_good : ∀ (comps acc : List Str),
    (∀ c ∈ comps, GoodComp c) → normLoop 1 comps acc = acc ++ comps
  | [], acc, _ => by simp [normLoop]
  | comp :: rest, acc, h => by
    have hg := h comp (List.mem_cons_self _ _)
    unfold normLoop
    rw [if_neg (by rintro (h | h) <;> [exact hg.1 h; exact hg.2.1 h]),
      if_pos (Or.inl hg.2.2.1),
      normLoop_all_good rest (acc ++ [comp])
        (fun c hc => h c (List.mem_cons_of_mem _ hc))]
    simp

/-- An empty component is skipped by the normalization loop. -/
theorem normLoop_nil_comp (s : Nat) (rest acc : List Str) :
    normLoop s ([] :: rest) acc = normLoop s rest acc := by
  rw [normLoop, if_pos (Or.inl rfl)]

/-- Evaluation of `normpath` on a path with exactly one leading slash. -/
theorem normpath_cons_slash (J : Str) (hJ : pyStartsWith ['/'] J = false) :
    normpath ('/' :: J) =
      '/' :: pyJoin '/' (normLoop 1 (pySplit '/' J) []) := by
  have h₁ : pyStartsWith ['/'] ('/' :: J) = true := by simp [pyStartsWith]
  have h₂ : pyStartsWith ['/', '/'] ('/' :: J) = false := by
    simpa [pyStartsWith] using hJ
  simp [normpath, h₁, h₂, pySplit_cons_sep, normLoop_nil_comp]

/-- A root-anchored join of canonical components is a fixed point of
`normpath`. -/
theorem normpath_canonical (N : List Str) (hN : ∀ c ∈ N, GoodComp c) :
    normpath ('/' :: pyJoin '/' N) = '/' :: pyJoin '/' N := by
  cases N with
  | nil => rfl
  | cons x xs =>
    have hx := hN x (List.mem_cons_self _ _)
    obtain ⟨d, x', rfl⟩ := List.exists_cons_of_ne_nil hx.1
    have hd : ('/' : Char) ≠ d := by
      intro h
      exact hx.2.2.2 (h ▸ List.mem_cons_self _ _)
    have hJ : pyStartsWith ['/'] (pyJoin '/' ((d :: x') :: xs)) = false := by
      cases xs with
      | nil => simp [pyJoin, pyStartsWith, hd]
      | cons y ys => simp [pyJoin_cons_cons, pyStartsWith, hd]
    rw [normpath_cons_slash _ hJ,
      pySplit_pyJoin '/' ((d :: x') :: xs) (List.cons_ne_nil _ _)
        (fun c hc => (hN c hc).2.2.2),
      normLoop_all_good _ [] hN]
    rfl

/-! ## Claim C3 -/

/-- Claim C3: for every relative path, `_prefix_login_path` returns an
absolute path (it begins with the path separator) and is idempotent on it,
and the empty string normalizes to the root path. -/
theorem normalize_relative_absolute_idempotent (P : Str)
    (h : pyStartsWith ['/'] P = false) :
    pyStartsWith ['/'] (prefix_login_path P) = true
    ∧ prefix_login_path (prefix_login_path P) = prefix_login_path P
    ∧ prefix_login_path [] = ['/'] := by
  have hpre : prefix_login_path P = normpath ('/' :: P) := by
    simp [prefix_login_path, h]
  have hM : ∀ c ∈ normLoop 1 (pySplit '/' P) [], GoodComp c :=
    normLoop_good (pySplit '/' P) [] (pySplit_mem_no_sep '/' P)
      (by intro c hc; cases hc)
  have heval : prefix_login_path P =
      '/' :: pyJoin '/' (normLoop 1 (pySplit '/' P) []) := by
    rw [hpre, normpath_cons_slash P h]
  refine ⟨?_, ?_, rfl⟩
  · rw [heval]
    simp [pyStartsWith]
  · rw [heval]
    have hsw : pyStartsWith ['/']
        ('/' :: pyJoin '/' (normLoop 1 (pySplit '/' P) [])) = true := by
      simp [pyStartsWith]
    simp only [prefix_login_path, hsw, if_pos rfl, if_true]
    exact normpath_canonical _ hM

/-- Witness for claim C3 at the concrete relative path `etc/motd`. -/
theorem normalize_relative_absolute_idempotent_witness :
    pyStartsWith ['/'] ("etc/motd".data) = false
    ∧ (pyStartsWith ['/'] (prefix_login_path ("etc/motd".data)) = true
      ∧ prefix_login_path (prefix_login_path ("etc/motd".data)) =
          prefix_login_path ("etc/motd".data)
      ∧ prefix_login_path [] = ['/']) :=
  ⟨by decide, normalize_relative_absolute_idempotent ("etc/motd".data) (by decide)⟩

/-! ## Claim C7 -/

/-- Claim C7: an absolute path already in canonical form — the root
followed by a slash-joined sequence of segments none of which is empty,
a dot, a dot-dot, or contains a separator — is returned unchanged by
`_prefix_login_path`. -/
theorem normalize_canonical_identity (comps : List Str)
    (h : ∀ c ∈ comps, GoodComp c) :
    prefix_login_path ('/' :: pyJoin '/' comps) = '/' :: pyJoin '/' comps := by
  have hsw : pyStartsWith ['/'] ('/' :: pyJoin '/' comps) = true := by
    simp [pyStartsWith]
  simp only [prefix_login_path, hsw, if_pos rfl, if_true]
  exact normpath_canonical comps h

/-- Witness for claim C7 at the concrete canonical path `/etc/motd`. -/
theorem normalize_canonical_identity_witness :
    (∀ c ∈ [("etc".data), ("motd".data)], GoodComp c)
    ∧ prefix_login_path ('/' :: pyJoin '/' [("etc".data), ("motd".data)]) =
        '/' :: pyJoin '/' [("etc".data), ("motd".data)] :=
  ⟨by decide, normalize_canonical_identity [("etc".data), ("motd".data)]
    (by decide)⟩

/-! ## Evaluation lemmas for put_file and fetch_file -/

theorem put_file_missing (cfg : Config) (lex : Str → Bool) (proc : ProcBehavior)
    (i o : Str) (h : lex i = false) :
    put_file cfg lex proc i o =
      (Except.error (ConnError.ansibleFileNotFound
        (("file or module does not exist: ".data) ++ i)), []) := by
  simp [put_file, h]

theorem put_file_launch_fail (cfg : Config) (lex : Str → Bool)
    (proc : ProcBehavior) (i o : Str) (hE : lex i = true)
    (hL : proc.launches = false) :
    put_file cfg lex proc i o =
      (Except.error (ConnError.ansibleError put_launch_msg),
       [Event.openRead i]) := by
  simp [put_file, hE, hL]

theorem put_file_nonzero (cfg : Config) (lex : Str → Bool)
    (proc : ProcBehavior) (i o : Str) (hE : lex i = true)
    (hL : proc.launches = true) (hR : proc.returncode ≠ 0) :
    put_file cfg lex proc i o =
      (Except.error (ConnError.ansibleError
        (put_fail_msg i (shlex_quote (prefix_login_path o))
          proc.stdoutData proc.stderrData)),
       [Event.openRead i, Event.popen (put_args cfg o)]) := by
  simp [put_file, put_args, hE, hL, hR]

theorem put_file_zero (cfg : Config) (lex : Str → Bool)
    (proc : ProcBehavior) (i o : Str) (hE : lex i = true)
    (hL : proc.launches = true) (hR : proc.returncode = 0) :
    put_file cfg lex proc i o =
      (Except.ok (), [Event.openRead i, Event.popen (put_args cfg o)]) := by
  simp [put_file, put_args, hE, hL, hR]

theorem fetch_file_launch_fail (cfg : Config) (fs : Str → Bool)
    (proc : ProcBehavior) (i o : Str) (hL : proc.launches = false) :
    fetch_file cfg fs proc i o =
      (Except.error (ConnError.ansibleError fetch_launch_msg),
       fun p => if p = o then true else fs p,
       [Event.openWrite o]) := by
  simp [fetch_file, hL]

theorem fetch_file_nonzero (cfg : Config) (fs : Str → Bool)
    (proc : ProcBehavior) (i o : Str) (hL : proc.launches = true)
    (hR : proc.returncode ≠ 0) :
    fetch_file cfg fs proc i o =
      (Except.error (ConnError.ansibleError
        (fetch_fail_msg (prefix_login_path i) o proc.stderrData)),
       fun p => if p = o then true else fs p,
       [Event.openWrite o, Event.popen (fetch_args cfg i)]) := by
  simp [fetch_file, fetch_args, hL, hR]

theorem fetch_file_zero (cfg : Config) (fs : Str → Bool)
    (proc : ProcBehavior) (i o : Str) (hL : proc.launches = true)
    (hR : proc.returncode = 0) :
    fetch_file cfg fs proc i o =
      (Except.ok (),
       fun p => if p = o then true else fs p,
       [Event.openWrite o, Event.popen (fetch_args cfg i)]) := by
  simp [fetch_file, fetch_args, hL, hR]

/-! ## Claim C2 -/

/-- Counterexample to claim C2: a put whose child runs and exits with
code 7 raises an error whose message is independent of the exit code —
the digit 7 appears nowhere in it, and the identical error is produced by
exit code 8 — so the raised error does not carry the exact exit code. -/
theorem transfer_error_no_exit_code_counterexample :
    (put_file ⟨("sing".data), ("inst".data), [], ("/bin/sh".data)⟩
        (fun _ => true) ⟨true, 7, ("o".data), ("boom".data)⟩
        ("/tmp/x".data) ("/etc/motd".data)).1
      = Except.error (ConnError.ansibleError
          (put_fail_msg ("/tmp/x".data) ("/etc/motd".data)
            ("o".data) ("boom".data)))
    ∧ '7' ∉ put_fail_msg ("/tmp/x".data) ("/etc/motd".data)
        ("o".data) ("boom".data)
    ∧ (put_file ⟨("sing".data), ("inst".data), [], ("/bin/sh".data)⟩
        (fun _ => true) ⟨true, 7, ("o".data), ("boom".data)⟩
        ("/tmp/x".data) ("/etc/motd".data)).1
      = (put_file ⟨("sing".data), ("inst".data), [], ("/bin/sh".data)⟩
        (fun _ => true) ⟨true, 8, ("o".data), ("boom".data)⟩
        ("/tmp/x".data) ("/etc/motd".data)).1 :=
  ⟨rfl, by decide, rfl⟩

/-- Claim C2 as amended: a non-zero exit from put or fetch raises an
`AnsibleError` whose message embeds the source path, the destination path
(shell-quoted for put) and the captured output — for put both captured
streams, for fetch the literal `None` (stdout was streamed to the local
file) and the repr of the captured stderr — but not the exit code: the
message is built by a function that does not take the exit code at all. -/
theorem transfer_error_message_streams (cfg : Config) (lex fs : Str → Bool)
    (proc : ProcBehavior) (pin pout fin fout : Str)
    (hE : lex pin = true) (hL : proc.launches = true)
    (hR : proc.returncode ≠ 0) :
    (put_file cfg lex proc pin pout).1
      = Except.error (ConnError.ansibleError
          (put_fail_msg pin (shlex_quote (prefix_login_path pout))
            proc.stdoutData proc.stderrData))
    ∧ (fetch_file cfg fs proc fin fout).1
      = Except.error (ConnError.ansibleError
          (fetch_fail_msg (prefix_login_path fin) fout proc.stderrData)) := by
  rw [put_file_nonzero cfg lex proc pin pout hE hL hR,
    fetch_file_nonzero cfg fs proc fin fout hL hR]
  exact ⟨rfl, rfl⟩

/-- Witness for the amended claim C2 at concrete inputs with exit code 1. -/
theorem transfer_error_message_streams_witness :
    (fun _ : Str => true) ("/tmp/x".data) = true
    ∧ (⟨true, 1, ("o".data), ("err".data)⟩ : ProcBehavior).launches = true
    ∧ (⟨true, 1, ("o".data), ("err".data)⟩ : ProcBehavior).returncode ≠ 0
    ∧ ((put_file ⟨("sing".data), ("inst".data), [], ("/bin/sh".data)⟩
          (fun _ => true) ⟨true, 1, ("o".data), ("err".data)⟩
          ("/tmp/x".data) ("etc/motd".data)).1
        = Except.error (ConnError.ansibleError
            (put_fail_msg ("/tmp/x".data)
              (shlex_quote (prefix_login_path ("etc/motd".data)))
              ("o".data) ("err".data)))
      ∧ (fetch_file ⟨("sing".data), ("inst".data), [], ("/bin/sh".data)⟩
          (fun _ => true) ⟨true, 1, ("o".data), ("err".data)⟩
          ("/var/log/x.log".data) ("out.log".data)).1
        = Except.error (ConnError.ansibleError
            (fetch_fail_msg (prefix_login_path ("/var/log/x.log".data))
              ("out.log".data) ("err".data)))) :=
  ⟨rfl, rfl, by decide,
    transfer_error_message_streams
      ⟨("sing".data), ("inst".data), [], ("/bin/sh".data)⟩
      (fun _ => true) (fun _ => true) ⟨true, 1, ("o".data), ("err".data)⟩
      ("/tmp/x".data) ("etc/motd".data)
      ("/var/log/x.log".data) ("out.log".data) rfl rfl (by decide)⟩

/-! ## Claim C4 -/

/-- Claim C4 is contradicted by the code on the fetch side: when the
child cannot be started, `fetch_file` raises the `AnsibleError` whose
message is the put wording — it speaks of putting files and of the `dd`
requirement, and never mentions fetching — so the error is not
operation-appropriate for a fetch.  This theorem evaluates the code at
the failing input: a fetch whose `Popen` raises `OSError`. -/
theorem fetch_launch_error_put_wording :
    (fetch_file ⟨("sing".data), ("inst".data), [], ("/bin/sh".data)⟩
        (fun _ => false) ⟨false, 0, [], []⟩
        ("/var/log/x.log".data) ("out.log".data)).1
      = Except.error (ConnError.ansibleError fetch_launch_msg)
    ∧ fetch_launch_msg = put_launch_msg
    ∧ ("put files".data) <:+: fetch_launch_msg
    ∧ ¬ ("fetch".data) <:+: fetch_launch_msg := by
  refine ⟨rfl, rfl, ?_, ?_⟩ <;> decide

/-! ## Claim C5 -/

/-- Claim C5: when the local source path does not exist, `put_file`
raises `AnsibleFileNotFound` naming that path, and the call performs no
observable action at all — in particular no child process is spawned. -/
theorem put_missing_source_no_spawn (cfg : Config) (lex : Str → Bool)
    (proc : ProcBehavior) (in_path out_path : Str)
    (h : lex in_path = false) :
    put_file cfg lex proc in_path out_path =
      (Except.error (ConnError.ansibleFileNotFound
        (("file or module does not exist: ".data) ++ in_path)), [])
    ∧ ∀ a, Event.popen a ∉ (put_file cfg lex proc in_path out_path).2 := by
  have heq := put_file_missing cfg lex proc in_path out_path h
  refine ⟨heq, ?_⟩
  intro a
  rw [heq]
  exact List.not_mem_nil _

/-- Witness for claim C5: an upload from an empty local filesystem. -/
theorem put_missing_source_no_spawn_witness :
    (fun _ : Str => false) ("/tmp/x".data) = false
    ∧ (put_file ⟨("sing".data), ("inst".data), [], ("/bin/sh".data)⟩
          (fun _ => false) ⟨true, 0, [], []⟩ ("/tmp/x".data) ("etc/motd".data) =
        (Except.error (ConnError.ansibleFileNotFound
          (("file or module does not exist: ".data) ++ ("/tmp/x".data))), [])
      ∧ ∀ a, Event.popen a ∉
          (put_file ⟨("sing".data), ("inst".data), [], ("/bin/sh".data)⟩
            (fun _ => false) ⟨true, 0, [], []⟩
            ("/tmp/x".data) ("etc/motd".data)).2) :=
  ⟨rfl, put_missing_source_no_spawn
    ⟨("sing".data), ("inst".data), [], ("/bin/sh".data)⟩
    (fun _ => false) ⟨true, 0, [], []⟩
    ("/tmp/x".data) ("etc/motd".data) rfl⟩

/-! ## Claim C6 -/

/-- Claim C6: a fetch whose child runs and exits non-zero raises the
transfer error, and the local destination file — created by opening it
for writing — is left in place: it exists afterwards, and no path that
existed before the call is removed. -/
theorem fetch_failure_leaves_local_file (cfg : Config) (fs : Str → Bool)
    (proc : ProcBehavior) (in_path out_path : Str)
    (hL : proc.launches = true) (hR : proc.returncode ≠ 0) :
    (fetch_file cfg fs proc in_path out_path).1
      = Except.error (ConnError.ansibleError
          (fetch_fail_msg (prefix_login_path in_path) out_path
            proc.stderrData))
    ∧ (fetch_file cfg fs proc in_path out_path).2.1 out_path = true
    ∧ ∀ q, fs q = true → (fetch_file cfg fs proc in_path out_path).2.1 q = true := by
  rw [fetch_file_nonzero cfg fs proc in_path out_path hL hR]
  refine ⟨rfl, by simp, ?_⟩
  intro q hq
  by_cases h : q = out_path <;> simp [h, hq]

/-- Witness for claim C6: the scenario from the spec — fetching
`/var/log/x.log` to `out.log`, the utility exiting 1 with stderr
`no such file` — leaves `out.log` present on an initially empty local
filesystem. -/
theorem fetch_failure_leaves_local_file_witness :
    (⟨true, 1, [], ("no such file".data)⟩ : ProcBehavior).launches = true
    ∧ (⟨true, 1, [], ("no such file".data)⟩ : ProcBehavior).returncode ≠ 0
    ∧ ((fetch_file ⟨("sing".data), ("inst".data), [], ("/bin/sh".data)⟩
          (fun _ => false) ⟨true, 1, [], ("no such file".data)⟩
          ("/var/log/x.log".data) ("out.log".data)).1
        = Except.error (ConnError.ansibleError
            (fetch_fail_msg (prefix_login_path ("/var/log/x.log".data))
              ("out.log".data) ("no such file".data)))
      ∧ (fetch_file ⟨("sing".data), ("inst".data), [], ("/bin/sh".data)⟩
          (fun _ => false) ⟨true, 1, [], ("no such file".data)⟩
          ("/var/log/x.log".data) ("out.log".data)).2.1 ("out.log".data) = true
      ∧ ∀ q, (fun _ : Str => false) q = true →
          (fetch_file ⟨("sing".data), ("inst".data), [], ("/bin/sh".data)⟩
            (fun _ => false) ⟨true, 1, [], ("no such file".data)⟩
            ("/var/log/x.log".data) ("out.log".data)).2.1 q = true) :=
  ⟨rfl, by decide,
    fetch_failure_leaves_local_file
      ⟨("sing".data), ("inst".data), [], ("/bin/sh".data)⟩
      (fun _ => false) ⟨true, 1, [], ("no such file".data)⟩
      ("/var/log/x.log".data) ("out.log".data) rfl (by decide)⟩

/-! ## Claim C8 -/

/-- Claim C8: `put_file` shell-quotes the normalized destination before
embedding it in the in-instance `dd` command string, while `fetch_file`
embeds the normalized source path in its command string with no quoting
at all, so for every remote path the fetch command string contains the
normalized path verbatim as a contiguous substring. -/
theorem put_quotes_fetch_verbatim (cfg : Config) (lex fs : Str → Bool)
    (proc : ProcBehavior) (pin pout fin fout : Str)
    (hE : lex pin = true) (hL : proc.launches = true) :
    Event.popen (build_exec_cmd cfg [cfg.executable, ("-c".data),
        ("dd of=".data) ++ shlex_quote (prefix_login_path pout) ++
          (" bs=".data) ++ bufsizeStr])
      ∈ (put_file cfg lex proc pin pout).2
    ∧ Event.popen (build_exec_cmd cfg [cfg.executable, ("-c".data),
        ("dd if=".data) ++ prefix_login_path fin ++
          (" bs=".data) ++ bufsizeStr])
      ∈ (fetch_file cfg fs proc fin fout).2.2
    ∧ prefix_login_path fin <:+:
        ("dd if=".data) ++ prefix_login_path fin ++ (" bs=".data) ++ bufsizeStr := by
  refine ⟨?_, ?_, ?_⟩
  · by_cases hR : proc.returncode = 0
    · rw [put_file_zero cfg lex proc pin pout hE hL hR]
      simp [put_args]
    · rw [put_file_nonzero cfg lex proc pin pout hE hL hR]
      simp [put_args]
  · by_cases hR : proc.returncode = 0
    · rw [fetch_file_zero cfg fs proc fin fout hL hR]
      simp [fetch_args]
    · rw [fetch_file_nonzero cfg fs proc fin fout hL hR]
      simp [fetch_args]
  · exact ⟨("dd if=".data), (" bs=".data) ++ bufsizeStr, by simp⟩

/-- Witness for claim C8 at a remote path containing a space: the fetch
command embeds `/a b` verbatim while the put command embeds its quoted
form. -/
theorem put_quotes_fetch_verbatim_witness :
    (fun _ : Str => true) ("/tmp/x".data) = true
    ∧ (⟨true, 0, [], []⟩ : ProcBehavior).launches = true
    ∧ (Event.popen (build_exec_cmd
          ⟨("sing".data), ("inst".data), [], ("/bin/sh".data)⟩
          [("/bin/sh".data), ("-c".data),
            ("dd of=".data) ++ shlex_quote (prefix_login_path ("/a b".data)) ++
              (" bs=".data) ++ bufsizeStr])
        ∈ (put_file ⟨("sing".data), ("inst".data), [], ("/bin/sh".data)⟩
            (fun _ => true) ⟨true, 0, [], []⟩
            ("/tmp/x".data) ("/a b".data)).2
      ∧ Event.popen (build_exec_cmd
          ⟨("sing".data), ("inst".data), [], ("/bin/sh".data)⟩
          [("/bin/sh".data), ("-c".data),
            ("dd if=".data) ++ prefix_login_path ("/a b".data) ++
              (" bs=".data) ++ bufsizeStr])
        ∈ (fetch_file ⟨("sing".data), ("inst".data), [], ("/bin/sh".data)⟩
            (fun _ => true) ⟨true, 0, [], []⟩
            ("/a b".data) ("out.log".data)).2.2
      ∧ prefix_login_path ("/a b".data) <:+:
          ("dd if=".data) ++ prefix_login_path ("/a b".data) ++
            (" bs=".data) ++ bufsizeStr) :=
  ⟨rfl, rfl,
    put_quotes_fetch_verbatim
      ⟨("sing".data), ("inst".data), [], ("/bin/sh".data)⟩
      (fun _ => true) (fun _ => true) ⟨true, 0, [], []⟩
      ("/tmp/x".data) ("/a b".data) ("/a b".data) ("out.log".data) rfl rfl⟩

/-! ## Claim C9 -/

/-- Claim C9: every fetch call opens (creates or truncates) the local
destination file before anything else — the first observable event is the
write-open, so it precedes any process creation — and therefore the local
destination exists afterwards in every outcome, including launch failure
and non-zero exit. -/
theorem fetch_creates_local_file_before_spawn (cfg : Config)
    (fs : Str → Bool) (proc : ProcBehavior) (in_path out_path : Str) :
    (fetch_file cfg fs proc in_path out_path).2.2.head?
        = some (Event.openWrite out_path)
    ∧ (fetch_file cfg fs proc in_path out_path).2.1 out_path = true := by
  cases hL : proc.launches with
  | false =>
    rw [fetch_file_launch_fail cfg fs proc in_path out_path hL]
    exact ⟨rfl, by simp⟩
  | true =>
    by_cases hR : proc.returncode = 0
    · rw [fetch_file_zero cfg fs proc in_path out_path hL hR]
      exact ⟨rfl, by simp⟩
    · rw [fetch_file_nonzero cfg fs proc in_path out_path hL hR]
      exact ⟨rfl, by simp⟩

